import Mathlib

/-!
# Verification of the unit-root testing app (`testt.py`)

A shallow embedding of the single source file `testt.py`: a Streamlit app
that loads a spreadsheet, lets the user pick a numeric column, and runs up
to four unit-root tests (ADF, KPSS, Phillips-Perron, Range Unit Root) on
the cleaned series, rendering a result table and a stationarity verdict
per test.

The four statistical routines (`statsmodels.adfuller`, `statsmodels.kpss`,
`arch.unitroot.PhillipsPerron`, `statsmodels.range_unit_root_test`) are
external collaborators; they are modelled as oracle functions that either
return a result record (mirroring the tuple / object shape the script
destructures) or raise, i.e. return an error. All floating point values
are modelled as rationals. The Streamlit calls (`st.write`, `st.dataframe`,
`st.success`, `st.warning`, `st.error`, `st.info`, `st.text`, ...) are
modelled as an ordered list of output items; an uncaught Python exception
renders an exception trace and aborts the rest of the script run, which is
exactly how Streamlit behaves.
-/

namespace UnitRootApp

/-- Inferred dtype of a spreadsheet column, as pandas sees it after
`pd.read_excel`. Only numeric-ness matters to the script
(`df.select_dtypes(include=[np.number])`). -/
inductive Dtype where
  | numeric
  | text
  | other
deriving DecidableEq, Repr

/-- One column of the uploaded table: its name, inferred dtype, and cell
values in row order (`none` models a missing value / NaN). -/
structure Column where
  name : String
  dtype : Dtype
  values : List (Option ℚ)
deriving DecidableEq, Repr

/-- `RawTable`: the dataframe `df = pd.read_excel(uploaded_file)`,
as an ordered list of named columns. -/
abbrev RawTable := List Column

/-- Line 29: `df.select_dtypes(include=[np.number]).columns.tolist()` —
the names of the numeric columns, in table order. -/
def numericColumns (df : RawTable) : List String :=
  (df.filter (fun c => c.dtype == Dtype.numeric)).map Column.name

/-- `df[name]`: first column carrying the given name. -/
def getColumn (df : RawTable) (name : String) : Option Column :=
  df.find? (fun c => c.name == name)

/-- Line 38: `df[selected_column].dropna()` — missing entries removed,
surviving values kept in their original row order. -/
def dropna (xs : List (Option ℚ)) : List ℚ :=
  xs.filterMap id

/-- Kind of failure a library routine can raise. The script's handlers
only ever use `str(e)` (the message); the kind is carried so that
"failure due to a missing optional dependency" is expressible. -/
inductive ErrKind where
  | missingDependency
  | insufficientData
  | numericalFailure
  | otherErr
deriving DecidableEq, Repr

/-- A raised Python exception: its kind and its `str(e)` message. -/
structure PyError where
  kind : ErrKind
  msg : String
deriving DecidableEq, Repr

/-- Return shape of `statsmodels.tsa.stattools.adfuller`:
`(adfstat, pvalue, usedlag, nobs, critvalues, icbest)`.
The script reads `result[0] .. result[4]`. The critical-value dict is
kept as an association list in insertion order. -/
structure AdfResult where
  stat : ℚ
  pvalue : ℚ
  usedlag : ℚ
  nobs : ℚ
  critValues : List (String × ℚ)
  icbest : ℚ
deriving DecidableEq, Repr

/-- Return shape of `statsmodels.tsa.stattools.kpss`:
`(kpss_stat, p_value, lags, crit)`. The script reads `result[0..3]`. -/
structure KpssResult where
  stat : ℚ
  pvalue : ℚ
  lags : ℚ
  critValues : List (String × ℚ)
deriving DecidableEq, Repr

/-- The `arch.unitroot.PhillipsPerron` object as the script uses it:
`pp.stat`, `pp.pvalue`, `pp.lags`, `pp.critical_values` (keys kept as
their `str()` form; the script suffixes a percent sign itself), and
`str(pp.summary())`. -/
structure PPResult where
  stat : ℚ
  pvalue : ℚ
  lags : ℚ
  critValues : List (String × ℚ)
  summaryStr : String
deriving DecidableEq, Repr

/-- Return shape of `statsmodels.tsa.stattools.range_unit_root_test`
with `store=True`: the script reads `result[0]` (stat), `result[1]`
(p-value) and `result[2]` (critical-value dict); the trailing store
object is unused. -/
structure RurResult where
  stat : ℚ
  pvalue : ℚ
  critValues : List (String × ℚ)
deriving DecidableEq, Repr

/-- The four external statistical routines, as oracles: each consumes the
cleaned numeric series and either returns its result record or raises. -/
structure Oracles where
  adfuller : List ℚ → Except PyError AdfResult
  kpss : List ℚ → Except PyError KpssResult
  phillipsPerron : List ℚ → Except PyError PPResult
  rangeUnitRoot : List ℚ → Except PyError RurResult

/-- The four test-selection checkboxes (lines 49–52), default all true. -/
structure TestSelection where
  run_adf : Bool
  run_kpss : Bool
  run_pp : Bool
  run_rur : Bool
deriving DecidableEq, Repr

/-- One rendered output element of the app, in emission order. -/
inductive OutItem where
  /-- `st.write` of markdown text. -/
  | writeText (s : String)
  /-- `st.dataframe(df.head())`: the preview of uploaded data. -/
  | preview
  /-- `st.selectbox`: offered column choices. -/
  | selectBox (options : List String)
  /-- `st.pyplot`: the time-series plot. -/
  | plot
  /-- `st.checkbox` with its label and current value. -/
  | checkbox (label : String) (value : Bool)
  /-- `st.dataframe` of a one-row result table: ordered (column label, value). -/
  | table (cols : List (String × ℚ))
  /-- `st.success` message. -/
  | success (s : String)
  /-- `st.warning` message. -/
  | warning (s : String)
  /-- `st.error` message. -/
  | errorMsg (s : String)
  /-- `st.info` message. -/
  | infoMsg (s : String)
  /-- `st.text` output. -/
  | textOut (s : String)
  /-- Streamlit rendering of an uncaught exception: the script run aborts here. -/
  | exceptionTrace (e : PyError)
deriving DecidableEq, Repr

/-- `df[label] = value` on a one-row pandas DataFrame: replaces the column
in place when the label already exists, appends it at the end otherwise. -/
def setCol (cols : List (String × ℚ)) (label : String) (v : ℚ) :
    List (String × ℚ) :=
  if cols.any (fun p => p.1 == label) then
    cols.map (fun p => if p.1 == label then (p.1, v) else p)
  else
    cols ++ [(label, v)]

/-- The `for key, value in critvalues.items(): df[fmt key] = value` loop:
folds the critical-value mapping, in its order, onto the base table. -/
def addCritCols (fmt : String → String) :
    List (String × ℚ) → List (String × ℚ) → List (String × ℚ)
  | base, [] => base
  | base, kv :: rest => addCritCols fmt (setCol base (fmt kv.1) kv.2) rest

/-- Line 75: the ADF / KPSS / RUR critical-value column label,
`f'Critical Value ({key})'`. -/
def critLabel (key : String) : String :=
  "Critical Value (" ++ key ++ ")"

/-- Line 136: the PP critical-value column label,
`f'Critical Value ({key}%)'` — the bare key gets a percent suffix. -/
def ppCritLabel (key : String) : String :=
  "Critical Value (" ++ key ++ "%)"

/-- Lines 67–75: the rendered ADF result table (`adf_output`). -/
def adfTable (r : AdfResult) : List (String × ℚ) :=
  addCritCols critLabel
    [("Statistic", r.stat), ("p-value", r.pvalue), ("Lags Used", r.usedlag),
     ("Number of Observations", r.nobs)]
    r.critValues

/-- Lines 95–102: the rendered KPSS result table (`kpss_output`). -/
def kpssTable (r : KpssResult) : List (String × ℚ) :=
  addCritCols critLabel
    [("Statistic", r.stat), ("p-value", r.pvalue), ("Lags Used", r.lags)]
    r.critValues

/-- Lines 127–136: the rendered PP result table (`pp_output`). -/
def ppTable (r : PPResult) : List (String × ℚ) :=
  addCritCols ppCritLabel
    [("Statistic", r.stat), ("p-value", r.pvalue), ("Lags Used", r.lags)]
    r.critValues

/-- Lines 164–171: the rendered RUR result table (`rur_output`). -/
def rurTable (r : RurResult) : List (String × ℚ) :=
  addCritCols critLabel
    [("Statistic", r.stat), ("p-value", r.pvalue)]
    r.critValues

/-- Lines 79–82: the ADF verdict. `result[1] <= 0.05` yields the green
stationary message, otherwise the orange non-stationary message. -/
def adfVerdictItem (p : ℚ) : OutItem :=
  if p ≤ 0.05 then
    OutItem.success "The series is stationary (reject the null hypothesis)."
  else
    OutItem.warning "The series is non-stationary (fail to reject the null hypothesis)."

/-- Lines 106–109: the KPSS verdict — opposite polarity, since the KPSS
null hypothesis is stationarity. -/
def kpssVerdictItem (p : ℚ) : OutItem :=
  if p ≤ 0.05 then
    OutItem.warning "The series is non-stationary (reject the null hypothesis)."
  else
    OutItem.success "The series is stationary (fail to reject the null hypothesis)."

/-- Lines 140–143: the PP verdict, same polarity as ADF. -/
def ppVerdictItem (p : ℚ) : OutItem :=
  if p ≤ 0.05 then
    OutItem.success "The series is stationary (reject the null hypothesis)."
  else
    OutItem.warning "The series is non-stationary (fail to reject the null hypothesis)."

/-- Lines 175–179: the RUR verdict, same polarity as ADF. -/
def rurVerdictItem (p : ℚ) : OutItem :=
  if p ≤ 0.05 then
    OutItem.success "The series is stationary (reject the null hypothesis)."
  else
    OutItem.warning "The series is non-stationary (fail to reject the null hypothesis)."

/-- The hypothesis-pair markdown the script writes under the ADF, PP and
RUR headers (unit-root null). -/
def unitRootHypText : String :=
  "**Null Hypothesis**: The series has a unit root (non-stationary) **Alternative Hypothesis**: The series has no unit root (stationary)"

/-- The hypothesis-pair markdown under the KPSS header (stationary null). -/
def kpssHypText : String :=
  "**Null Hypothesis**: The series is stationary **Alternative Hypothesis**: The series has a unit root (non-stationary)"

/-- A test block's emissions: the items it renders, and `some e` when an
exception escapes it uncaught (aborting the remainder of the script run). -/
abbrev BlockOut := List OutItem × Option PyError

/-- Lines 58–82, the ADF block. The `adfuller` call at line 65 is NOT
inside a `try`: when it raises, only the two header writes have been
emitted and the exception escapes. -/
def adfBlock (o : Oracles) (data : List ℚ) : BlockOut :=
  let hdr : List OutItem :=
    [OutItem.writeText "### Augmented Dickey-Fuller Test",
     OutItem.writeText unitRootHypText]
  match o.adfuller data with
  | Except.error e => (hdr, some e)
  | Except.ok r =>
      (hdr ++ [OutItem.table (adfTable r), adfVerdictItem r.pvalue], none)

/-- Lines 85–111, the KPSS block. The `kpss` call and rendering are inside
`try`; any exception becomes an `st.error` message. -/
def kpssBlock (o : Oracles) (data : List ℚ) : BlockOut :=
  let hdr : List OutItem :=
    [OutItem.writeText "### KPSS Test", OutItem.writeText kpssHypText]
  match o.kpss data with
  | Except.error e =>
      (hdr ++ [OutItem.errorMsg ("Error in KPSS test: " ++ e.msg)], none)
  | Except.ok r =>
      (hdr ++ [OutItem.table (kpssTable r), kpssVerdictItem r.pvalue], none)

/-- The install hint `st.info` at line 151, emitted in the PP `except` arm. -/
def ppInstallHint : String :=
  "Note: This test requires the \x27arch\x27 library. Install it using pip install arch"

/-- Lines 114–151, the Phillips-Perron block. Inside `try`: result table,
verdict, and the detailed `pp.summary()` text. The `except` arm emits the
error message AND, unconditionally, the install hint. -/
def ppBlock (o : Oracles) (data : List ℚ) : BlockOut :=
  let hdr : List OutItem :=
    [OutItem.writeText "### Phillips-Perron Test", OutItem.writeText unitRootHypText]
  match o.phillipsPerron data with
  | Except.error e =>
      (hdr ++ [OutItem.errorMsg ("Error in Phillips-Perron test: " ++ e.msg),
               OutItem.infoMsg ppInstallHint], none)
  | Except.ok r =>
      (hdr ++ [OutItem.table (ppTable r), ppVerdictItem r.pvalue,
               OutItem.textOut "Detailed Phillips-Perron Test Results:",
               OutItem.textOut r.summaryStr], none)

/-- Lines 154–182, the Range Unit Root block, wrapped in `try` like KPSS. -/
def rurBlock (o : Oracles) (data : List ℚ) : BlockOut :=
  let hdr : List OutItem :=
    [OutItem.writeText "### Range Unit Root Test", OutItem.writeText unitRootHypText]
  match o.rangeUnitRoot data with
  | Except.error e =>
      (hdr ++ [OutItem.errorMsg ("Error in Range Unit Root test: " ++ e.msg)], none)
  | Except.ok r =>
      (hdr ++ [OutItem.table (rurTable r), rurVerdictItem r.pvalue], none)

/-- The gated sequence of test blocks, in source order
ADF → KPSS → PP → RUR (lines 58, 85, 114, 154). -/
def testBlocks (o : Oracles) (data : List ℚ) (sel : TestSelection) :
    List BlockOut :=
  (if sel.run_adf then [adfBlock o data] else [])
    ++ (if sel.run_kpss then [kpssBlock o data] else [])
    ++ (if sel.run_pp then [ppBlock o data] else [])
    ++ (if sel.run_rur then [rurBlock o data] else [])

/-- Runs blocks in order. A block that lets an exception escape renders
the exception trace and aborts the rest of the script run. -/
def seqBlocks : List BlockOut → List OutItem
  | [] => []
  | (items, none) :: rest => items ++ seqBlocks rest
  | (items, some e) :: _ => items ++ [OutItem.exceptionTrace e]

/-- Lines 54–182: everything emitted after the `Run Tests` button. -/
def runTests (o : Oracles) (data : List ℚ) (sel : TestSelection) :
    List OutItem :=
  OutItem.writeText "## Test Results" :: seqBlocks (testBlocks o data sel)

/-- Lines 24–182: the app body once a file has been uploaded and parsed
into `df`. Preview, numeric-column check (early return on none), column
selection, plot, checkboxes, then — when the button was pressed — the
test blocks on the cleaned series of the selected column. -/
def appAfterUpload (o : Oracles) (df : RawTable) (selected_column : String)
    (sel : TestSelection) (runPressed : Bool) : List OutItem :=
  let pre : List OutItem :=
    [OutItem.writeText "### Preview of uploaded data:", OutItem.preview]
  let ncols := numericColumns df
  if ncols.isEmpty then
    pre ++ [OutItem.errorMsg "No numeric columns found in the uploaded file."]
  else
    match getColumn df selected_column with
    | none =>
        pre ++ [OutItem.selectBox ncols,
                OutItem.exceptionTrace ⟨ErrKind.otherErr, "KeyError"⟩]
    | some col =>
        let data := dropna col.values
        pre ++ [OutItem.selectBox ncols,
                OutItem.writeText "### Time Series Plot:", OutItem.plot,
                OutItem.writeText "### Select Unit Root Tests to Perform:",
                OutItem.checkbox "Augmented Dickey-Fuller (ADF) Test" sel.run_adf,
                OutItem.checkbox "KPSS Test" sel.run_kpss,
                OutItem.checkbox "Phillips-Perron (PP) Test" sel.run_pp,
                OutItem.checkbox "Range Unit Root Test" sel.run_rur]
          ++ (if runPressed then runTests o data sel else [])

/-- Field names of the `TestResult` record as the specification defines it
(its section 3); stated here to compare against what the code renders. -/
def specTestResultFieldNames : List String :=
  ["test_kind", "statistic", "p_value", "lags_used", "critical_values"]

/-- The four test-selection checkboxes all enabled — the default. -/
def selAll : TestSelection := ⟨true, true, true, true⟩

/-- A concrete oracle assignment under which every routine succeeds,
returning small plausible result records. -/
def oAllOk : Oracles where
  adfuller := fun _ =>
    Except.ok ⟨-3, 1/100, 1, 98, [("1%", -7/2), ("5%", -29/10), ("10%", -13/5)], 5⟩
  kpss := fun _ =>
    Except.ok ⟨1/10, 1/10, 4, [("10%", 7/20), ("5%", 12/25), ("2.5%", 57/100), ("1%", 37/50)]⟩
  phillipsPerron := fun _ =>
    Except.ok ⟨-3, 1/50, 2, [("1", -7/2), ("5", -29/10), ("10", -13/5)], "pp summary text"⟩
  rangeUnitRoot := fun _ =>
    Except.ok ⟨1/2, 3/100, [("10%", 1), ("5%", 11/10), ("1%", 6/5)]⟩

/-- A concrete oracle assignment under which `adfuller` raises (as it does
on series too short for the lag regression) and the rest succeed. -/
def oAdfFails : Oracles :=
  { oAllOk with
    adfuller := fun _ =>
      Except.error ⟨ErrKind.insufficientData,
        "sample size is too short to use selected regression component"⟩ }

/-- A concrete oracle assignment under which Phillips-Perron raises with a
failure that is NOT a missing-dependency failure, and the rest succeed. -/
def oPpFails : Oracles :=
  { oAllOk with
    phillipsPerron := fun _ =>
      Except.error ⟨ErrKind.insufficientData, "25 observations are required"⟩ }

/-- A concrete oracle assignment under which every routine raises on an
empty input series (as the real routines do) and succeeds otherwise. -/
def oFailsOnEmpty : Oracles where
  adfuller := fun xs =>
    if xs.isEmpty then Except.error ⟨ErrKind.insufficientData, "empty input"⟩
    else oAllOk.adfuller xs
  kpss := fun xs =>
    if xs.isEmpty then Except.error ⟨ErrKind.insufficientData, "empty input"⟩
    else oAllOk.kpss xs
  phillipsPerron := fun xs =>
    if xs.isEmpty then Except.error ⟨ErrKind.insufficientData, "empty input"⟩
    else oAllOk.phillipsPerron xs
  rangeUnitRoot := fun xs =>
    if xs.isEmpty then Except.error ⟨ErrKind.insufficientData, "empty input"⟩
    else oAllOk.rangeUnitRoot xs

/-- An uploaded table whose only column is numeric but has every value
missing: its cleaned series is empty. -/
def dfAllMissing : RawTable :=
  [⟨"x", Dtype.numeric, [none, none, none]⟩]

/-! ## Helper lemmas -/

theorem mem_setCol_of_ne {cols : List (String × ℚ)} {p : String × ℚ}
    (hp : p ∈ cols) {label : String} {v : ℚ} (hne : p.1 ≠ label) :
    p ∈ setCol cols label v := by
  unfold setCol
  split
  · have heq : (if p.1 == label then (p.1, v) else p) = p := by simp [hne]
    exact heq ▸ List.mem_map_of_mem _ hp
  · exact List.mem_append.mpr (Or.inl hp)

theorem fst_setCol {cols : List (String × ℚ)} {label : String} {v : ℚ}
    {s : String} (h : s ∈ (setCol cols label v).map Prod.fst) :
    s ∈ cols.map Prod.fst ∨ s = label := by
  unfold setCol at h
  split at h
  · rcases List.mem_map.mp h with ⟨q, hq, hfst⟩
    rcases List.mem_map.mp hq with ⟨q0, hq0, hval⟩
    by_cases hc : q0.1 == label
    · subst hval
      left
      rw [← hfst]
      simp [hc]
      exact ⟨q0.2, hq0⟩
    · subst hval
      left
      rw [← hfst]
      simp [hc]
      exact ⟨q0.2, hq0⟩
  · rw [List.map_append] at h
    rcases List.mem_append.mp h with h1 | h2
    · exact Or.inl h1
    · simp at h2
      exact Or.inr h2

theorem mem_addCritCols_of_ne (fmt : String → String) :
    ∀ (cvs base : List (String × ℚ)) (p : String × ℚ),
      p ∈ base → (∀ kv ∈ cvs, fmt kv.1 ≠ p.1) → p ∈ addCritCols fmt base cvs := by
  intro cvs
  induction cvs with
  | nil => intro base p hp _; exact hp
  | cons kv rest ih =>
      intro base p hp hne
      show p ∈ addCritCols fmt (setCol base (fmt kv.1) kv.2) rest
      refine ih _ p (mem_setCol_of_ne hp ?_) ?_
      · exact fun hc => hne kv (List.mem_cons_self _ _) hc.symm
      · exact fun kv' hkv' => hne kv' (List.mem_cons_of_mem _ hkv')

theorem fst_addCritCols (fmt : String → String) :
    ∀ (cvs base : List (String × ℚ)) (s : String),
      s ∈ (addCritCols fmt base cvs).map Prod.fst →
      s ∈ base.map Prod.fst ∨ ∃ kv ∈ cvs, s = fmt kv.1 := by
  intro cvs
  induction cvs with
  | nil => intro base s h; exact Or.inl h
  | cons kv rest ih =>
      intro base s h
      rcases ih (setCol base (fmt kv.1) kv.2) s h with h1 | ⟨kv', hkv', hs⟩
      · rcases fst_setCol h1 with h2 | h2
        · exact Or.inl h2
        · exact Or.inr ⟨kv, List.mem_cons_self _ _, h2⟩
      · exact Or.inr ⟨kv', List.mem_cons_of_mem _ hkv', hs⟩

theorem setCol_eq_append {cols : List (String × ℚ)} {label : String}
    (v : ℚ) (h : label ∉ cols.map Prod.fst) :
    setCol cols label v = cols ++ [(label, v)] := by
  unfold setCol
  rw [if_neg]
  intro hc
  rcases List.any_eq_true.mp hc with ⟨p, hp, hpl⟩
  exact h (beq_iff_eq.mp hpl ▸ List.mem_map_of_mem Prod.fst hp)

theorem addCritCols_eq_append (fmt : String → String) :
    ∀ (cvs base : List (String × ℚ)),
      (∀ kv ∈ cvs, fmt kv.1 ∉ base.map Prod.fst) →
      (cvs.map (fun kv => fmt kv.1)).Nodup →
      addCritCols fmt base cvs = base ++ cvs.map (fun kv => (fmt kv.1, kv.2)) := by
  intro cvs
  induction cvs with
  | nil => intro base _ _; simp [addCritCols]
  | cons kv rest ih =>
      intro base hfresh hnd
      show addCritCols fmt (setCol base (fmt kv.1) kv.2) rest = _
      rw [setCol_eq_append kv.2 (hfresh kv (List.mem_cons_self _ _))]
      rw [ih (base ++ [(fmt kv.1, kv.2)]) ?_ ?_]
      · simp
      · intro kv' hkv'
        rw [List.map_append, List.mem_append]
        rintro (hL | hR)
        · exact hfresh kv' (List.mem_cons_of_mem _ hkv') hL
        · simp at hR
          have hhd : fmt kv.1 ∉ (rest.map (fun kv => fmt kv.1)) :=
            (List.nodup_cons.mp (by simpa using hnd)).1
          exact hhd (hR ▸ List.mem_map_of_mem _ hkv')
      · exact (List.nodup_cons.mp (by simpa using hnd)).2

theorem critLabel_data (k : String) :
    (critLabel k).data = "Critical Value (".data ++ k.data ++ ")".data := by
  simp [critLabel, String.data_append]

theorem ppCritLabel_data (k : String) :
    (ppCritLabel k).data = "Critical Value (".data ++ k.data ++ "%)".data := by
  simp [ppCritLabel, String.data_append]

theorem critLabel_head (k : String) : (critLabel k).data.head? = some 'C' := by
  rw [critLabel_data]
  rfl

theorem ppCritLabel_head (k : String) : (ppCritLabel k).data.head? = some 'C' := by
  rw [ppCritLabel_data]
  rfl

theorem critLabel_ne (k s : String) (hs : s.data.head? ≠ some 'C') :
    critLabel k ≠ s := by
  intro h
  exact hs (h ▸ critLabel_head k)

theorem ppCritLabel_ne (k s : String) (hs : s.data.head? ≠ some 'C') :
    ppCritLabel k ≠ s := by
  intro h
  exact hs (h ▸ ppCritLabel_head k)

theorem critLabel_injective : Function.Injective critLabel := by
  intro a b h
  have hd := congrArg String.data h
  simp only [critLabel, String.data_append] at hd
  exact String.ext (List.append_cancel_left (List.append_cancel_right hd))

theorem ppCritLabel_injective : Function.Injective ppCritLabel := by
  intro a b h
  have hd := congrArg String.data h
  simp only [ppCritLabel, String.data_append] at hd
  exact String.ext (List.append_cancel_left (List.append_cancel_right hd))

theorem seqBlocks_cons_of_none {b : BlockOut} (hb : b.2 = none)
    (rest : List BlockOut) : seqBlocks (b :: rest) = b.1 ++ seqBlocks rest := by
  cases b with
  | mk items oe =>
      cases oe with
      | none => rfl
      | some e => exact absurd hb (by simp)

theorem kpssBlock_snd (o : Oracles) (data : List ℚ) :
    (kpssBlock o data).2 = none := by
  unfold kpssBlock
  cases o.kpss data <;> rfl

theorem ppBlock_snd (o : Oracles) (data : List ℚ) :
    (ppBlock o data).2 = none := by
  unfold ppBlock
  cases o.phillipsPerron data <;> rfl

theorem rurBlock_snd (o : Oracles) (data : List ℚ) :
    (rurBlock o data).2 = none := by
  unfold rurBlock
  cases o.rangeUnitRoot data <;> rfl

theorem adfBlock_snd_of_ok {o : Oracles} {data : List ℚ}
    (h : (o.adfuller data).isOk = true) : (adfBlock o data).2 = none := by
  unfold adfBlock
  cases hA : o.adfuller data with
  | error e => rw [hA] at h; exact absurd h (by simp [Except.isOk, Except.toBool])
  | ok r => rfl

theorem writeText_mem_adfBlock {o : Oracles} {data : List ℚ} {s : String}
    (h : OutItem.writeText s ∈ (adfBlock o data).1) :
    s = "### Augmented Dickey-Fuller Test" ∨ s = unitRootHypText := by
  unfold adfBlock at h
  cases hA : o.adfuller data with
  | error e => rw [hA] at h; simpa using h
  | ok r =>
      rw [hA] at h
      by_cases hc : r.pvalue ≤ 0.05 <;> simp [adfVerdictItem, hc] at h <;> tauto

theorem writeText_mem_kpssBlock {o : Oracles} {data : List ℚ} {s : String}
    (h : OutItem.writeText s ∈ (kpssBlock o data).1) :
    s = "### KPSS Test" ∨ s = kpssHypText := by
  unfold kpssBlock at h
  cases hA : o.kpss data with
  | error e => rw [hA] at h; simpa using h
  | ok r =>
      rw [hA] at h
      by_cases hc : r.pvalue ≤ 0.05 <;> simp [kpssVerdictItem, hc] at h <;> tauto

theorem writeText_mem_ppBlock {o : Oracles} {data : List ℚ} {s : String}
    (h : OutItem.writeText s ∈ (ppBlock o data).1) :
    s = "### Phillips-Perron Test" ∨ s = unitRootHypText := by
  unfold ppBlock at h
  cases hA : o.phillipsPerron data with
  | error e => rw [hA] at h; simpa using h
  | ok r =>
      rw [hA] at h
      by_cases hc : r.pvalue ≤ 0.05 <;> simp [ppVerdictItem, hc] at h <;> tauto

theorem writeText_mem_rurBlock {o : Oracles} {data : List ℚ} {s : String}
    (h : OutItem.writeText s ∈ (rurBlock o data).1) :
    s = "### Range Unit Root Test" ∨ s = unitRootHypText := by
  unfold rurBlock at h
  cases hA : o.rangeUnitRoot data with
  | error e => rw [hA] at h; simpa using h
  | ok r =>
      rw [hA] at h
      by_cases hc : r.pvalue ≤ 0.05 <;> simp [rurVerdictItem, hc] at h <;> tauto

theorem adfHeader_mem_adfBlock (o : Oracles) (data : List ℚ) :
    OutItem.writeText "### Augmented Dickey-Fuller Test" ∈ (adfBlock o data).1 := by
  unfold adfBlock
  cases o.adfuller data <;> simp

theorem kpssHeader_mem_kpssBlock (o : Oracles) (data : List ℚ) :
    OutItem.writeText "### KPSS Test" ∈ (kpssBlock o data).1 := by
  unfold kpssBlock
  cases o.kpss data <;> simp

theorem ppHeader_mem_ppBlock (o : Oracles) (data : List ℚ) :
    OutItem.writeText "### Phillips-Perron Test" ∈ (ppBlock o data).1 := by
  unfold ppBlock
  cases o.phillipsPerron data <;> simp

theorem rurHeader_mem_rurBlock (o : Oracles) (data : List ℚ) :
    OutItem.writeText "### Range Unit Root Test" ∈ (rurBlock o data).1 := by
  unfold rurBlock
  cases o.rangeUnitRoot data <;> simp

/-! ## Claim theorems -/

/-- C8: the cleaned numeric series is exactly the chosen column's
non-missing values in their original relative order — viewed back through
`some` it is a sublist of the raw column (order preserved, nothing
reintroduced), and every value occurs in it exactly as often as it occurs
non-missing in the raw column (nothing dropped, nothing added). -/
theorem dropna_exact_order (xs : List (Option ℚ)) :
    ((dropna xs).map some).Sublist xs ∧
      ∀ v : ℚ, (dropna xs).count v = xs.count (some v) := by
  constructor
  · induction xs with
    | nil => simp [dropna]
    | cons hd tl ih =>
        cases hd with
        | none => simpa [dropna] using ih.cons none
        | some v => simpa [dropna] using ih.cons₂ (some v)
  · intro v
    induction xs with
    | nil => simp [dropna]
    | cons hd tl ih =>
        simp only [dropna] at ih ⊢
        cases hd with
        | none => simpa [List.count_cons] using ih
        | some w => simp [List.count_cons, ih]

/-- C2: for every succeeded test, the rendered verdict is the green
stationary message exactly when the p-value is at most 0.05 for ADF,
Phillips-Perron and Range Unit Root, and exactly when the p-value exceeds
0.05 for KPSS (whose null hypothesis is stationarity). -/
theorem verdict_polarity_005 (p : ℚ) :
    (adfVerdictItem p =
        OutItem.success "The series is stationary (reject the null hypothesis)." ↔
      p ≤ 0.05) ∧
    (kpssVerdictItem p =
        OutItem.success "The series is stationary (fail to reject the null hypothesis)." ↔
      0.05 < p) ∧
    (ppVerdictItem p =
        OutItem.success "The series is stationary (reject the null hypothesis)." ↔
      p ≤ 0.05) ∧
    (rurVerdictItem p =
        OutItem.success "The series is stationary (reject the null hypothesis)." ↔
      p ≤ 0.05) := by
  by_cases hc : p ≤ 0.05
  · simp [adfVerdictItem, kpssVerdictItem, ppVerdictItem, rurVerdictItem, hc,
      not_lt.mpr hc]
  · simp [adfVerdictItem, kpssVerdictItem, ppVerdictItem, rurVerdictItem, hc,
      not_le.mp hc]

/-- C7: every column name offered by the column selector
(`numericColumns`, the selectbox choices) is the name of a column of the
uploaded table whose inferred dtype is numeric; no non-numeric column is
ever offered. -/
theorem column_selector_numeric_only (df : RawTable) (c : String)
    (hc : c ∈ numericColumns df) :
    ∃ col ∈ df, col.name = c ∧ col.dtype = Dtype.numeric := by
  unfold numericColumns at hc
  rcases List.mem_map.mp hc with ⟨col, hmem, hname⟩
  rcases List.mem_filter.mp hmem with ⟨hdf, hnum⟩
  exact ⟨col, hdf, hname, by simpa using hnum⟩

/-- A mixed table: one text column, one numeric column. -/
def dfMixed : RawTable :=
  [⟨"label", Dtype.text, [none]⟩, ⟨"y", Dtype.numeric, [some 1, none, some 2]⟩]

theorem column_selector_numeric_only_witness :
    "y" ∈ numericColumns dfMixed ∧
      ∃ col ∈ dfMixed, col.name = "y" ∧ col.dtype = Dtype.numeric :=
  ⟨by decide, column_selector_numeric_only dfMixed "y" (by decide)⟩

/-- C6: when the uploaded table has no numeric column, the app reports the
no-numeric-columns error and stops: the whole output is the preview plus
that error — no column selector is offered, no test-results section and no
result table is ever rendered. -/
theorem no_numeric_columns_halts (o : Oracles) (df : RawTable)
    (c : String) (sel : TestSelection) (rp : Bool)
    (h : numericColumns df = []) :
    appAfterUpload o df c sel rp =
      [OutItem.writeText "### Preview of uploaded data:", OutItem.preview,
       OutItem.errorMsg "No numeric columns found in the uploaded file."] ∧
    (∀ opts, OutItem.selectBox opts ∉ appAfterUpload o df c sel rp) ∧
    OutItem.writeText "## Test Results" ∉ appAfterUpload o df c sel rp ∧
    (∀ cols, OutItem.table cols ∉ appAfterUpload o df c sel rp) := by
  have h1 : appAfterUpload o df c sel rp =
      [OutItem.writeText "### Preview of uploaded data:", OutItem.preview,
       OutItem.errorMsg "No numeric columns found in the uploaded file."] := by
    simp [appAfterUpload, h]
  refine ⟨h1, ?_, ?_, ?_⟩
  · intro opts
    rw [h1]
    simp
  · rw [h1]
    simp
  · intro cols
    rw [h1]
    simp

/-- A table whose only column is textual. -/
def dfTextOnly : RawTable :=
  [⟨"label", Dtype.text, [none, some 1]⟩]

theorem no_numeric_columns_halts_witness :
    numericColumns dfTextOnly = [] ∧
    (appAfterUpload oAllOk dfTextOnly "label" selAll true =
      [OutItem.writeText "### Preview of uploaded data:", OutItem.preview,
       OutItem.errorMsg "No numeric columns found in the uploaded file."] ∧
    (∀ opts, OutItem.selectBox opts ∉ appAfterUpload oAllOk dfTextOnly "label" selAll true) ∧
    OutItem.writeText "## Test Results" ∉ appAfterUpload oAllOk dfTextOnly "label" selAll true ∧
    (∀ cols, OutItem.table cols ∉ appAfterUpload oAllOk dfTextOnly "label" selAll true)) :=
  ⟨by decide, no_numeric_columns_halts oAllOk dfTextOnly "label" selAll true (by decide)⟩

/-- C9 counterexample: a Phillips-Perron failure whose kind is NOT a
missing optional dependency (here: insufficient data) still renders the
installation hint — so the hint is not reserved to the distinguished
missing-dependency sub-case. -/
theorem pp_hint_not_only_for_missing_dependency :
    oPpFails.phillipsPerron [] =
      Except.error ⟨ErrKind.insufficientData, "25 observations are required"⟩ ∧
    ErrKind.insufficientData ≠ ErrKind.missingDependency ∧
    OutItem.infoMsg ppInstallHint ∈ (ppBlock oPpFails []).1 := by
  refine ⟨rfl, by decide, ?_⟩
  simp [ppBlock, oPpFails, oAllOk]

/-- C9 amended: every Phillips-Perron failure, of any kind, renders the
error report followed by the installation hint; in particular a
missing-dependency failure does carry the hint, but so does every other
failure. -/
theorem pp_failure_always_hints (o : Oracles) (data : List ℚ) (e : PyError)
    (h : o.phillipsPerron data = Except.error e) :
    (ppBlock o data).1 =
      [OutItem.writeText "### Phillips-Perron Test",
       OutItem.writeText unitRootHypText,
       OutItem.errorMsg ("Error in Phillips-Perron test: " ++ e.msg),
       OutItem.infoMsg ppInstallHint] := by
  simp [ppBlock, h]

theorem pp_failure_always_hints_witness :
    oFailsOnEmpty.phillipsPerron [] =
      Except.error ⟨ErrKind.insufficientData, "empty input"⟩ ∧
    (ppBlock oFailsOnEmpty []).1 =
      [OutItem.writeText "### Phillips-Perron Test",
       OutItem.writeText unitRootHypText,
       OutItem.errorMsg ("Error in Phillips-Perron test: " ++ "empty input"),
       OutItem.infoMsg ppInstallHint] :=
  ⟨rfl,
    pp_failure_always_hints oFailsOnEmpty []
      ⟨ErrKind.insufficientData, "empty input"⟩ rfl⟩

/-- C10: the rendered ADF table carries a Number of Observations column
holding the fourth component of the `adfuller` return tuple; no KPSS, PP
or RUR table ever carries such a column, and the specification's
`TestResult` record has no field for it. -/
theorem adf_nobs_column (r : AdfResult) (k : KpssResult) (q : PPResult)
    (u : RurResult) :
    ("Number of Observations", r.nobs) ∈ adfTable r ∧
    "Number of Observations" ∉ (kpssTable k).map Prod.fst ∧
    "Number of Observations" ∉ (ppTable q).map Prod.fst ∧
    "Number of Observations" ∉ (rurTable u).map Prod.fst ∧
    "Number of Observations" ∉ specTestResultFieldNames := by
  refine ⟨?_, ?_, ?_, ?_, by decide⟩
  · unfold adfTable
    refine mem_addCritCols_of_ne critLabel r.critValues _ _ (by simp) ?_
    intro kv _
    exact critLabel_ne kv.1 "Number of Observations" (by decide)
  · intro hmem
    unfold kpssTable at hmem
    rcases fst_addCritCols critLabel k.critValues _ _ hmem with h1 | ⟨kv, _, hs⟩
    · simp at h1
    · exact critLabel_ne kv.1 _ (by decide) hs.symm
  · intro hmem
    unfold ppTable at hmem
    rcases fst_addCritCols ppCritLabel q.critValues _ _ hmem with h1 | ⟨kv, _, hs⟩
    · simp at h1
    · exact ppCritLabel_ne kv.1 _ (by decide) hs.symm
  · intro hmem
    unfold rurTable at hmem
    rcases fst_addCritCols critLabel u.critValues _ _ hmem with h1 | ⟨kv, _, hs⟩
    · simp at h1
    · exact critLabel_ne kv.1 _ (by decide) hs.symm

/-- C4: for each of the four test kinds, the rendered table is exactly the
base statistic columns followed by one column per critical-value entry of
the routine's mapping, in mapping order, each labelled by the fixed format
(`Critical Value (key)`, with a percent suffix added to the bare key for
PP) with the key kept verbatim and the level value unchanged — no entry
added, dropped, or relabeled. Holds whenever the routine's mapping has
distinct keys, which a Python dict guarantees. -/
theorem critical_values_exact (cvs : List (String × ℚ))
    (hnd : (cvs.map Prod.fst).Nodup)
    (s p l n ic : ℚ) (sm : String) :
    adfTable ⟨s, p, l, n, cvs, ic⟩ =
      [("Statistic", s), ("p-value", p), ("Lags Used", l),
       ("Number of Observations", n)] ++
        cvs.map (fun kv => (critLabel kv.1, kv.2)) ∧
    kpssTable ⟨s, p, l, cvs⟩ =
      [("Statistic", s), ("p-value", p), ("Lags Used", l)] ++
        cvs.map (fun kv => (critLabel kv.1, kv.2)) ∧
    ppTable ⟨s, p, l, cvs, sm⟩ =
      [("Statistic", s), ("p-value", p), ("Lags Used", l)] ++
        cvs.map (fun kv => (ppCritLabel kv.1, kv.2)) ∧
    rurTable ⟨s, p, cvs⟩ =
      [("Statistic", s), ("p-value", p)] ++
        cvs.map (fun kv => (critLabel kv.1, kv.2)) := by
  have hndC : (cvs.map (fun kv => critLabel kv.1)).Nodup := by
    have hmap : cvs.map (fun kv => critLabel kv.1) =
        (cvs.map Prod.fst).map critLabel := by
      simp [List.map_map]
    rw [hmap]
    exact hnd.map critLabel_injective
  have hndP : (cvs.map (fun kv => ppCritLabel kv.1)).Nodup := by
    have hmap : cvs.map (fun kv => ppCritLabel kv.1) =
        (cvs.map Prod.fst).map ppCritLabel := by
      simp [List.map_map]
    rw [hmap]
    exact hnd.map ppCritLabel_injective
  refine ⟨?_, ?_, ?_, ?_⟩
  · unfold adfTable
    refine addCritCols_eq_append critLabel cvs _ ?_ hndC
    intro kv _ h
    simp at h
    rcases h with h | h | h | h <;> exact critLabel_ne kv.1 _ (by decide) h
  · unfold kpssTable
    refine addCritCols_eq_append critLabel cvs _ ?_ hndC
    intro kv _ h
    simp at h
    rcases h with h | h | h <;> exact critLabel_ne kv.1 _ (by decide) h
  · unfold ppTable
    refine addCritCols_eq_append ppCritLabel cvs _ ?_ hndP
    intro kv _ h
    simp at h
    rcases h with h | h | h <;> exact ppCritLabel_ne kv.1 _ (by decide) h
  · unfold rurTable
    refine addCritCols_eq_append critLabel cvs _ ?_ hndC
    intro kv _ h
    simp at h
    rcases h with h | h <;> exact critLabel_ne kv.1 _ (by decide) h

theorem critical_values_exact_witness :
    ([("5%", (3:ℚ)), ("1%", 4)].map Prod.fst).Nodup ∧
    (adfTable ⟨0, 0, 0, 0, [("5%", 3), ("1%", 4)], 0⟩ =
      [("Statistic", 0), ("p-value", 0), ("Lags Used", 0),
       ("Number of Observations", 0)] ++
        [("5%", (3:ℚ)), ("1%", 4)].map (fun kv => (critLabel kv.1, kv.2)) ∧
    kpssTable ⟨0, 0, 0, [("5%", 3), ("1%", 4)]⟩ =
      [("Statistic", 0), ("p-value", 0), ("Lags Used", 0)] ++
        [("5%", (3:ℚ)), ("1%", 4)].map (fun kv => (critLabel kv.1, kv.2)) ∧
    ppTable ⟨0, 0, 0, [("5%", 3), ("1%", 4)], ""⟩ =
      [("Statistic", 0), ("p-value", 0), ("Lags Used", 0)] ++
        [("5%", (3:ℚ)), ("1%", 4)].map (fun kv => (ppCritLabel kv.1, kv.2)) ∧
    rurTable ⟨0, 0, [("5%", 3), ("1%", 4)]⟩ =
      [("Statistic", 0), ("p-value", 0)] ++
        [("5%", (3:ℚ)), ("1%", 4)].map (fun kv => (critLabel kv.1, kv.2))) :=
  ⟨by decide, critical_values_exact [("5%", 3), ("1%", 4)] (by decide) 0 0 0 0 0 ""⟩

/-- C1 (evaluation at the failing input): with all four tests enabled and
`adfuller` raising, the run renders the uncaught exception trace right
after the ADF header and aborts — no KPSS, Phillips-Perron or Range Unit
Root section appears, and the ADF failure is never converted into a
reported error message. The `adfuller` call at line 65 is the only test
invocation not wrapped in a `try`. -/
theorem adf_failure_aborts_other_tests :
    runTests oAdfFails [1, 2] selAll =
      [OutItem.writeText "## Test Results",
       OutItem.writeText "### Augmented Dickey-Fuller Test",
       OutItem.writeText unitRootHypText,
       OutItem.exceptionTrace ⟨ErrKind.insufficientData,
         "sample size is too short to use selected regression component"⟩] ∧
    OutItem.writeText "### KPSS Test" ∉ runTests oAdfFails [1, 2] selAll ∧
    OutItem.writeText "### Phillips-Perron Test" ∉ runTests oAdfFails [1, 2] selAll ∧
    OutItem.writeText "### Range Unit Root Test" ∉ runTests oAdfFails [1, 2] selAll ∧
    (∀ s, OutItem.errorMsg s ∉ runTests oAdfFails [1, 2] selAll) := by
  have h1 : runTests oAdfFails [1, 2] selAll =
      [OutItem.writeText "## Test Results",
       OutItem.writeText "### Augmented Dickey-Fuller Test",
       OutItem.writeText unitRootHypText,
       OutItem.exceptionTrace ⟨ErrKind.insufficientData,
         "sample size is too short to use selected regression component"⟩] := by
    rfl
  refine ⟨h1, ?_, ?_, ?_, ?_⟩
  · rw [h1]; simp [unitRootHypText]
  · rw [h1]; simp [unitRootHypText]
  · rw [h1]; simp [unitRootHypText]
  · intro s; rw [h1]; simp

/-- C3 (evaluation at the failing input): a selected column whose values
are all missing cleans to the empty series; the script performs no
emptiness check and invokes the routines on it anyway — the unguarded ADF
call raises and the exception is uncaught, aborting the run; no per-test
error message is ever reported. -/
theorem empty_series_uncaught_crash :
    dropna [none, none, none] = ([] : List ℚ) ∧
    appAfterUpload oFailsOnEmpty dfAllMissing "x" selAll true =
      [OutItem.writeText "### Preview of uploaded data:", OutItem.preview,
       OutItem.selectBox ["x"],
       OutItem.writeText "### Time Series Plot:", OutItem.plot,
       OutItem.writeText "### Select Unit Root Tests to Perform:",
       OutItem.checkbox "Augmented Dickey-Fuller (ADF) Test" true,
       OutItem.checkbox "KPSS Test" true,
       OutItem.checkbox "Phillips-Perron (PP) Test" true,
       OutItem.checkbox "Range Unit Root Test" true,
       OutItem.writeText "## Test Results",
       OutItem.writeText "### Augmented Dickey-Fuller Test",
       OutItem.writeText unitRootHypText,
       OutItem.exceptionTrace ⟨ErrKind.insufficientData, "empty input"⟩] ∧
    (∀ s, OutItem.errorMsg s ∉
      appAfterUpload oFailsOnEmpty dfAllMissing "x" selAll true) ∧
    OutItem.writeText "### KPSS Test" ∉
      appAfterUpload oFailsOnEmpty dfAllMissing "x" selAll true := by
  have h1 : appAfterUpload oFailsOnEmpty dfAllMissing "x" selAll true =
      [OutItem.writeText "### Preview of uploaded data:", OutItem.preview,
       OutItem.selectBox ["x"],
       OutItem.writeText "### Time Series Plot:", OutItem.plot,
       OutItem.writeText "### Select Unit Root Tests to Perform:",
       OutItem.checkbox "Augmented Dickey-Fuller (ADF) Test" true,
       OutItem.checkbox "KPSS Test" true,
       OutItem.checkbox "Phillips-Perron (PP) Test" true,
       OutItem.checkbox "Range Unit Root Test" true,
       OutItem.writeText "## Test Results",
       OutItem.writeText "### Augmented Dickey-Fuller Test",
       OutItem.writeText unitRootHypText,
       OutItem.exceptionTrace ⟨ErrKind.insufficientData, "empty input"⟩] := by
    rfl
  refine ⟨rfl, h1, ?_, ?_⟩
  · intro s; rw [h1]; simp
  · rw [h1]; simp [unitRootHypText]

/-- C5 counterexample: with every checkbox enabled but the ADF invocation
raising, the enabled KPSS test gets no section at all — its uncaught
failure did suppress another enabled test's output. -/
theorem enabled_section_missing_on_adf_failure :
    selAll.run_kpss = true ∧
    OutItem.writeText "### KPSS Test" ∉ runTests oAdfFails [1, 2, 3] selAll := by
  refine ⟨rfl, ?_⟩
  have h1 : runTests oAdfFails [1, 2, 3] selAll =
      [OutItem.writeText "## Test Results",
       OutItem.writeText "### Augmented Dickey-Fuller Test",
       OutItem.writeText unitRootHypText,
       OutItem.exceptionTrace ⟨ErrKind.insufficientData,
         "sample size is too short to use selected regression component"⟩] := by
    rfl
  rw [h1]
  simp [unitRootHypText]

theorem seqBlocks_join (bs : List BlockOut) (hb : ∀ b ∈ bs, b.2 = none) :
    seqBlocks bs = (bs.map Prod.fst).flatten := by
  induction bs with
  | nil => rfl
  | cons b rest ih =>
      rw [seqBlocks_cons_of_none (hb b (List.mem_cons_self _ _)),
        List.map_cons, List.flatten_cons,
        ih (fun b' hb' => hb b' (List.mem_cons_of_mem _ hb'))]

theorem mem_ite_nil {α : Type} {c : Prop} [Decidable c] {x : α} {L : List α} :
    (x ∈ if c then L else []) ↔ c ∧ x ∈ L := by
  by_cases hc : c
  · simp [hc]
  · simp [hc]

/-- C5 amended: provided an enabled ADF invocation does not raise (when it
does, the exception is uncaught and cuts the remaining output short), the
output after Run Tests is exactly the heading followed by the blocks of
the enabled tests in the fixed source order ADF, KPSS, Phillips-Perron,
Range Unit Root, and a test's section header appears in the output exactly
when its checkbox is enabled. -/
theorem gated_sections_in_order (o : Oracles) (data : List ℚ)
    (sel : TestSelection)
    (h : sel.run_adf = true → (o.adfuller data).isOk = true) :
    runTests o data sel =
      OutItem.writeText "## Test Results" ::
        ((if sel.run_adf then (adfBlock o data).1 else []) ++
         (if sel.run_kpss then (kpssBlock o data).1 else []) ++
         (if sel.run_pp then (ppBlock o data).1 else []) ++
         (if sel.run_rur then (rurBlock o data).1 else [])) ∧
    (OutItem.writeText "### Augmented Dickey-Fuller Test" ∈ runTests o data sel ↔
      sel.run_adf = true) ∧
    (OutItem.writeText "### KPSS Test" ∈ runTests o data sel ↔
      sel.run_kpss = true) ∧
    (OutItem.writeText "### Phillips-Perron Test" ∈ runTests o data sel ↔
      sel.run_pp = true) ∧
    (OutItem.writeText "### Range Unit Root Test" ∈ runTests o data sel ↔
      sel.run_rur = true) := by
  have hall : ∀ b ∈ testBlocks o data sel, b.2 = none := by
    intro b hb
    unfold testBlocks at hb
    simp only [List.mem_append] at hb
    rcases hb with ((hb | hb) | hb) | hb
    · cases ha : sel.run_adf with
      | false => rw [ha] at hb; simp at hb
      | true =>
          rw [ha] at hb
          simp at hb
          rw [hb]
          exact adfBlock_snd_of_ok (h ha)
    · rcases mem_ite_nil.mp hb with ⟨_, hb'⟩
      rw [List.mem_singleton.mp hb']
      exact kpssBlock_snd o data
    · rcases mem_ite_nil.mp hb with ⟨_, hb'⟩
      rw [List.mem_singleton.mp hb']
      exact ppBlock_snd o data
    · rcases mem_ite_nil.mp hb with ⟨_, hb'⟩
      rw [List.mem_singleton.mp hb']
      exact rurBlock_snd o data
  have hjoin : ∀ (c : Bool) (b : BlockOut),
      ((if c = true then [b] else []).map Prod.fst).flatten =
        if c = true then b.1 else [] := by
    intro c b
    cases c <;> simp
  have h1 : runTests o data sel =
      OutItem.writeText "## Test Results" ::
        ((if sel.run_adf then (adfBlock o data).1 else []) ++
         (if sel.run_kpss then (kpssBlock o data).1 else []) ++
         (if sel.run_pp then (ppBlock o data).1 else []) ++
         (if sel.run_rur then (rurBlock o data).1 else [])) := by
    unfold runTests
    rw [seqBlocks_join _ hall]
    unfold testBlocks
    rw [List.map_append, List.map_append, List.map_append,
      List.flatten_append, List.flatten_append, List.flatten_append,
      hjoin, hjoin, hjoin, hjoin]
  have hmem : ∀ s : String,
      OutItem.writeText s ∈ runTests o data sel ↔
        (s = "## Test Results" ∨
         (sel.run_adf = true ∧ OutItem.writeText s ∈ (adfBlock o data).1) ∨
         (sel.run_kpss = true ∧ OutItem.writeText s ∈ (kpssBlock o data).1) ∨
         (sel.run_pp = true ∧ OutItem.writeText s ∈ (ppBlock o data).1) ∨
         (sel.run_rur = true ∧ OutItem.writeText s ∈ (rurBlock o data).1)) := by
    intro s
    rw [h1]
    simp only [List.mem_cons, List.mem_append, mem_ite_nil, OutItem.writeText.injEq]
    tauto
  refine ⟨h1, ?_, ?_, ?_, ?_⟩
  · constructor
    · intro hm
      rcases (hmem _).mp hm with h0 | ⟨ha, _⟩ | ⟨_, hK⟩ | ⟨_, hP⟩ | ⟨_, hR⟩
      · exact absurd h0 (by decide)
      · exact ha
      · rcases writeText_mem_kpssBlock hK with h' | h' <;> exact absurd h' (by decide)
      · rcases writeText_mem_ppBlock hP with h' | h' <;> exact absurd h' (by decide)
      · rcases writeText_mem_rurBlock hR with h' | h' <;> exact absurd h' (by decide)
    · intro ha
      exact (hmem _).mpr (Or.inr (Or.inl ⟨ha, adfHeader_mem_adfBlock o data⟩))
  · constructor
    · intro hm
      rcases (hmem _).mp hm with h0 | ⟨_, hA⟩ | ⟨hk, _⟩ | ⟨_, hP⟩ | ⟨_, hR⟩
      · exact absurd h0 (by decide)
      · rcases writeText_mem_adfBlock hA with h' | h' <;> exact absurd h' (by decide)
      · exact hk
      · rcases writeText_mem_ppBlock hP with h' | h' <;> exact absurd h' (by decide)
      · rcases writeText_mem_rurBlock hR with h' | h' <;> exact absurd h' (by decide)
    · intro hk
      exact (hmem _).mpr (Or.inr (Or.inr (Or.inl ⟨hk, kpssHeader_mem_kpssBlock o data⟩)))
  · constructor
    · intro hm
      rcases (hmem _).mp hm with h0 | ⟨_, hA⟩ | ⟨_, hK⟩ | ⟨hp, _⟩ | ⟨_, hR⟩
      · exact absurd h0 (by decide)
      · rcases writeText_mem_adfBlock hA with h' | h' <;> exact absurd h' (by decide)
      · rcases writeText_mem_kpssBlock hK with h' | h' <;> exact absurd h' (by decide)
      · exact hp
      · rcases writeText_mem_rurBlock hR with h' | h' <;> exact absurd h' (by decide)
    · intro hp
      exact (hmem _).mpr (Or.inr (Or.inr (Or.inr (Or.inl
        ⟨hp, ppHeader_mem_ppBlock o data⟩))))
  · constructor
    · intro hm
      rcases (hmem _).mp hm with h0 | ⟨_, hA⟩ | ⟨_, hK⟩ | ⟨_, hP⟩ | ⟨hr, _⟩
      · exact absurd h0 (by decide)
      · rcases writeText_mem_adfBlock hA with h' | h' <;> exact absurd h' (by decide)
      · rcases writeText_mem_kpssBlock hK with h' | h' <;> exact absurd h' (by decide)
      · rcases writeText_mem_ppBlock hP with h' | h' <;> exact absurd h' (by decide)
      · exact hr
    · intro hr
      exact (hmem _).mpr (Or.inr (Or.inr (Or.inr (Or.inr
        ⟨hr, rurHeader_mem_rurBlock o data⟩))))

theorem gated_sections_in_order_witness :
    (selAll.run_adf = true → (oAllOk.adfuller [1]).isOk = true) ∧
    (runTests oAllOk [1] selAll =
      OutItem.writeText "## Test Results" ::
        ((if selAll.run_adf then (adfBlock oAllOk [1]).1 else []) ++
         (if selAll.run_kpss then (kpssBlock oAllOk [1]).1 else []) ++
         (if selAll.run_pp then (ppBlock oAllOk [1]).1 else []) ++
         (if selAll.run_rur then (rurBlock oAllOk [1]).1 else [])) ∧
    (OutItem.writeText "### Augmented Dickey-Fuller Test" ∈ runTests oAllOk [1] selAll ↔
      selAll.run_adf = true) ∧
    (OutItem.writeText "### KPSS Test" ∈ runTests oAllOk [1] selAll ↔
      selAll.run_kpss = true) ∧
    (OutItem.writeText "### Phillips-Perron Test" ∈ runTests oAllOk [1] selAll ↔
      selAll.run_pp = true) ∧
    (OutItem.writeText "### Range Unit Root Test" ∈ runTests oAllOk [1] selAll ↔
      selAll.run_rur = true)) :=
  ⟨by decide, gated_sections_in_order oAllOk [1] selAll (by decide)⟩

end UnitRootApp
